import Mathlib

/-!
Shallow embedding of `src/main.py` (Instagram engagement-rate actor).

The program fetches a public-profile JSON for each username through a proxy,
scores it (likes + comments, plus views for video posts, averaged over at
most 12 recent posts), retries transient network errors with exponential
backoff, and emits one output row per non-empty username.

Modelling conventions:
* JSON counters (`edge_liked_by.count`, …, defaulting to 0 when absent) are
  modelled as `Nat`, following the data model's non-negative integers.
* One network attempt is an `AttemptOutcome`: either a 2xx response whose
  parsed `data.user` payload is present or absent (`ok`), or one of the
  exception kinds the code distinguishes.  An environment `Nat → AttemptOutcome`
  gives the outcome the transport would produce at each attempt index.
* `float` arithmetic of the source is idealised as exact rational
  arithmetic; `round(x, 2)` is modelled as rounding to the nearest multiple
  of 1/100 (`round2`).  No claim in scope depends on tie-breaking or on
  binary-float rounding error.
* Effects are made explicit as traces: the list of backoff sleeps (seconds)
  performed, the proxy URL used by each executed attempt, and the session
  identifiers requested from the proxy configuration.
-/

/-- One post node of `data.user.edge_owner_to_timeline_media.edges[].node`:
`edge_liked_by.count`, `edge_media_to_comment.count`, `video_view_count`
(each defaulting to 0 when absent) and `is_video`. -/
structure Post where
  likeCount : Nat
  commentCount : Nat
  viewCount : Nat
  isVideo : Bool
deriving DecidableEq, Repr

/-- The `data.user` payload: `edge_followed_by.count` and the raw
`edge_owner_to_timeline_media.edges` list (before the `[:12]` truncation). -/
structure UserData where
  followerCount : Nat
  edges : List Post
deriving DecidableEq, Repr

/-- Outcome of one `client.get` attempt, as the code distinguishes them:
a 2xx response whose parsed `data.user` is present (`ok (some u)`) or
missing/empty (`ok none`); the three exception kinds caught by the retry
clause (`httpx.HTTPStatusError` — also raised by `raise_for_status` on a
non-2xx response —, `httpx.ProxyError`, `httpx.ReadTimeout`); or any other
exception, carrying its type name and message. -/
inductive AttemptOutcome where
  | ok (user : Option UserData)
  | httpStatusError
  | proxyError
  | readTimeout
  | otherException (kind : String) (msg : String)
deriving DecidableEq, Repr

/-- Whether an outcome is caught by
`except (httpx.HTTPStatusError, httpx.ProxyError, httpx.ReadTimeout)`. -/
def retryable : AttemptOutcome → Bool
  | .httpStatusError => true
  | .proxyError => true
  | .readTimeout => true
  | _ => false

/-- Python's `type(e).__name__` for the modelled exception kinds (and
`NoneType` for `None`, which only shows up if no exception was recorded). -/
def errorKindName : AttemptOutcome → String
  | .httpStatusError => "HTTPStatusError"
  | .proxyError => "ProxyError"
  | .readTimeout => "ReadTimeout"
  | .otherException kind _ => kind
  | .ok _ => "NoneType"

/-- Result dictionary returned by `fetch_profile`: the success branch carries
`followers`, `posts_analyzed`, `avg_engagement_score`, `engagement_rate_pct`
(with `error = None`); every failure branch carries only an error string. -/
inductive FetchResult where
  | success (followers : Nat) (postsAnalyzed : Nat) (avgEngagementScore : Nat)
      (engagementRatePct : ℚ)
  | failure (error : String)
deriving DecidableEq, Repr

/-- Python's `round(x, 2)`, idealised over ℚ: round to the nearest multiple
of 1/100.  (CPython rounds ties of the underlying binary float to even; no
claim in scope exercises a tie.) -/
def round2 (q : ℚ) : ℚ := (round (q * 100) : ℚ) / 100

/-- Per-post score: `edge_liked_by.count + edge_media_to_comment.count`,
plus `video_view_count` only when `is_video` is true. -/
def post_score (node : Post) : Nat :=
  node.likeCount + node.commentCount + (if node.isVideo then node.viewCount else 0)

def MAX_RETRIES : Nat := 3

def BASE_DELAY_SECONDS : Nat := 2

/-- The success body of `fetch_profile` (lines 52–72 of `src/main.py`):
truncate edges to 12, sum per-post scores, average over `max(len(edges), 1)`,
floor the average into `avg_engagement_score`, and compute
`engagement_rate_pct` from the un-floored average when followers are
non-zero.  `math.floor` of the non-negative rational average is `Nat`
division `total / n_posts`. -/
def scoreUser (data : UserData) : FetchResult :=
  let followers := data.followerCount
  let edges := data.edges.take 12
  let total_engagement_score := (edges.map post_score).sum
  let n_posts := max edges.length 1
  let avg_engagement_score : ℚ := (total_engagement_score : ℚ) / (n_posts : ℚ)
  let er : ℚ :=
    if followers ≠ 0 then (avg_engagement_score / (followers : ℚ)) * 100 else 0
  .success followers n_posts (total_engagement_score / n_posts) (round2 er)

/-- The retry loop of `fetch_profile`: `rem` is the number of loop
iterations left (starting at `MAX_RETRIES`), `attempt` the current attempt
index, `lastError` the recorded `last_error`'s type name.  Returns the
result together with the trace of backoff sleeps and the proxy URL each
executed attempt passed to `client.get`.  The sleep
`BASE_DELAY_SECONDS * 2 ^ attempt` happens inside the `except` clause, so it
is performed even when the failed attempt was the last one. -/
def fetchGo (proxyUrl : String) (outcomes : Nat → AttemptOutcome) :
    Nat → Nat → Option String → FetchResult × List Nat × List String
  | 0, _, lastError =>
    (.failure ("Falha após " ++ toString MAX_RETRIES ++ " tentativas: "
        ++ lastError.getD "NoneType"), [], [])
  | rem + 1, attempt, _ =>
    match outcomes attempt with
    | .ok none => (.failure "perfil inexistente/privado", [], [proxyUrl])
    | .ok (some data) => (scoreUser data, [], [proxyUrl])
    | .otherException kind msg =>
      (.failure ("Erro inesperado: " ++ kind ++ ": " ++ msg), [], [proxyUrl])
    | e =>
      let delay := BASE_DELAY_SECONDS * 2 ^ attempt
      let rest := fetchGo proxyUrl outcomes rem (attempt + 1) (some (errorKindName e))
      (rest.1, delay :: rest.2.1, proxyUrl :: rest.2.2)

/-- `fetch_profile(client, username, proxy_url)`: run up to `MAX_RETRIES`
attempts against the environment `outcomes`, with no recorded error
initially. -/
def fetch_profile (proxyUrl : String) (outcomes : Nat → AttemptOutcome) :
    FetchResult × List Nat × List String :=
  fetchGo proxyUrl outcomes MAX_RETRIES 0 none

/-- The row pushed to the dataset: defaults
`{followers: 0, posts_analyzed: 0, avg_engagement_score: 0,
engagement_rate_pct: 0.0, error: None}` updated with the keys present in the
fetch result (failure results carry only `username` and `error`, so the
numeric fields keep their zero defaults). -/
structure Row where
  username : String
  followers : Nat
  posts_analyzed : Nat
  avg_engagement_score : Nat
  engagement_rate_pct : ℚ
  error : Option String
deriving DecidableEq, Repr

/-- `row = {defaults}; row.update(result)` of `process_and_save_username`. -/
def makeRow (username : String) : FetchResult → Row
  | .success f n avg er => ⟨username, f, n, avg, er, none⟩
  | .failure e => ⟨username, 0, 0, 0, 0, some e⟩

/-- `session_id = f'session_{username}'` — computed once per username,
before the retry loop, with no attempt index in the key. -/
def session_id_for (username : String) : String := "session_" ++ username

/-- Observable effects of `process_and_save_username` for one username:
the row pushed to the dataset, the session identifiers passed to
`proxy_config.new_url` (in order), the backoff sleeps performed, and the
proxy URL used by each executed attempt. -/
structure ProcessTrace where
  row : Row
  sessionIdsRequested : List String
  sleeps : List Nat
  proxiesUsedPerAttempt : List String
deriving DecidableEq, Repr

/-- `process_and_save_username`: request one proxy URL for
`session_<username>`, run `fetch_profile` with it, build the defaulted row
and push it. -/
def process_and_save_username (newUrl : String → String) (username : String)
    (outcomes : Nat → AttemptOutcome) : ProcessTrace :=
  let sid := session_id_for username
  let proxy_url := newUrl sid
  let r := fetch_profile proxy_url outcomes
  ⟨makeRow username r.1, [sid], r.2.1, r.2.2⟩

/-- Python `str.strip(chars)` on the character list: drop characters of
`chars` from both ends. -/
def stripChars (chars : List Char) (l : List Char) : List Char :=
  ((l.dropWhile (fun c => chars.contains c)).reverse.dropWhile
    (fun c => chars.contains c)).reverse

/-- `username.strip("@ ")` from `main`: remove `'@'` and `' '` characters
from both ends of the username. -/
def clean_username (s : String) : String :=
  ⟨stripChars ['@', ' '] s.data⟩

/-- The usernames `main` actually dispatches: each input is cleaned with
`strip("@ ")` and entries empty after cleaning are skipped. -/
def keptUsernames (usernames : List String) : List String :=
  (usernames.map clean_username).filter (fun u => u ≠ "")

/-- `total_usernames`: starts at `len(usernames)` and is decremented once
for every entry whose cleaned form is empty (the skipped entries). -/
def total_usernames (usernames : List String) : Nat :=
  usernames.foldl
    (fun total u => if clean_username u = "" then total - 1 else total)
    usernames.length

/-- The rows pushed to the dataset over a whole run: one per kept username.
`asyncio.as_completed` surfaces them in completion order; the model lists
them in submission order, which fixes the same multiset of rows. -/
def emittedRows (newUrl : String → String) (usernames : List String)
    (outcomes : String → Nat → AttemptOutcome) : List Row :=
  (keptUsernames usernames).map
    (fun u => (process_and_save_username newUrl u (outcomes u)).row)

/-- Whitespace characters of Python's default `str.strip()`. -/
def isSpaceChar (c : Char) : Bool :=
  c = ' ' || c = '\t' || c = '\n' || c = '\r' || c = '\x0b' || c = '\x0c'

/-- Modelled from the spec: the normalization §3 describes for
ProfileRequest — "trimmed, leading `@`/spaces stripped" — i.e. trim
whitespace at both ends, then drop leading `'@'` and `' '` characters.
Present only to compare with `clean_username`; the source's `main` uses
`strip("@ ")`. -/
def specNormalize (s : String) : String :=
  ⟨(((s.data.dropWhile isSpaceChar).reverse.dropWhile isSpaceChar).reverse).dropWhile
      (fun c => c = '@' || c = ' ')⟩

/-! Helper lemmas about the retry loop and row construction. -/

theorem fetchGo_retry_step (proxyUrl : String) (outcomes : Nat → AttemptOutcome)
    (rem attempt : Nat) (lastError : Option String)
    (h : retryable (outcomes attempt) = true) :
    fetchGo proxyUrl outcomes (rem + 1) attempt lastError
      = ((fetchGo proxyUrl outcomes rem (attempt + 1)
            (some (errorKindName (outcomes attempt)))).1,
         BASE_DELAY_SECONDS * 2 ^ attempt
           :: (fetchGo proxyUrl outcomes rem (attempt + 1)
                (some (errorKindName (outcomes attempt)))).2.1,
         proxyUrl
           :: (fetchGo proxyUrl outcomes rem (attempt + 1)
                (some (errorKindName (outcomes attempt)))).2.2) := by
  cases ho : outcomes attempt <;>
    simp [retryable, ho] at h <;>
    simp [fetchGo, ho, errorKindName]

theorem fetchGo_ok_none_step (proxyUrl : String) (outcomes : Nat → AttemptOutcome)
    (rem attempt : Nat) (lastError : Option String)
    (h : outcomes attempt = .ok none) :
    fetchGo proxyUrl outcomes (rem + 1) attempt lastError
      = (.failure "perfil inexistente/privado", [], [proxyUrl]) := by
  simp [fetchGo, h]

theorem fetchGo_ok_some_step (proxyUrl : String) (outcomes : Nat → AttemptOutcome)
    (rem attempt : Nat) (lastError : Option String) (data : UserData)
    (h : outcomes attempt = .ok (some data)) :
    fetchGo proxyUrl outcomes (rem + 1) attempt lastError
      = (scoreUser data, [], [proxyUrl]) := by
  simp [fetchGo, h]

theorem fetchGo_other_step (proxyUrl : String) (outcomes : Nat → AttemptOutcome)
    (rem attempt : Nat) (lastError : Option String) (kind msg : String)
    (h : outcomes attempt = .otherException kind msg) :
    fetchGo proxyUrl outcomes (rem + 1) attempt lastError
      = (.failure ("Erro inesperado: " ++ kind ++ ": " ++ msg), [], [proxyUrl]) := by
  simp [fetchGo, h]

theorem makeRow_username (username : String) (r : FetchResult) :
    (makeRow username r).username = username := by
  cases r <;> rfl

theorem process_row_eq (newUrl : String → String) (username : String)
    (outcomes : Nat → AttemptOutcome) :
    (process_and_save_username newUrl username outcomes).row
      = makeRow username
          (fetch_profile (newUrl (session_id_for username)) outcomes).1 := rfl

theorem process_row_username (newUrl : String → String) (username : String)
    (outcomes : Nat → AttemptOutcome) :
    (process_and_save_username newUrl username outcomes).row.username = username := by
  rw [process_row_eq]; exact makeRow_username username _

theorem fetch_success_posts (proxyUrl : String) (outcomes : Nat → AttemptOutcome) :
    ∀ (rem attempt : Nat) (lastError : Option String) (f n a : Nat) (er : ℚ),
      (fetchGo proxyUrl outcomes rem attempt lastError).1 = .success f n a er →
      1 ≤ n := by
  intro rem
  induction rem with
  | zero =>
    intro attempt lastError f n a er h
    simp [fetchGo] at h
  | succ rem ih =>
    intro attempt lastError f n a er h
    cases ho : outcomes attempt with
    | ok user =>
      cases user with
      | none =>
        rw [fetchGo_ok_none_step proxyUrl outcomes rem attempt lastError ho] at h
        simp at h
      | some data =>
        rw [fetchGo_ok_some_step proxyUrl outcomes rem attempt lastError data ho] at h
        simp [scoreUser] at h
        omega
    | httpStatusError =>
      rw [fetchGo_retry_step proxyUrl outcomes rem attempt lastError
        (by simp [retryable, ho])] at h
      exact ih _ _ _ _ _ _ h
    | proxyError =>
      rw [fetchGo_retry_step proxyUrl outcomes rem attempt lastError
        (by simp [retryable, ho])] at h
      exact ih _ _ _ _ _ _ h
    | readTimeout =>
      rw [fetchGo_retry_step proxyUrl outcomes rem attempt lastError
        (by simp [retryable, ho])] at h
      exact ih _ _ _ _ _ _ h
    | otherException kind msg =>
      rw [fetchGo_other_step proxyUrl outcomes rem attempt lastError kind msg ho] at h
      simp at h

theorem fetch_profile_all_retryable (proxyUrl : String) (outcomes : Nat → AttemptOutcome)
    (h0 : retryable (outcomes 0) = true) (h1 : retryable (outcomes 1) = true)
    (h2 : retryable (outcomes 2) = true) :
    fetch_profile proxyUrl outcomes
      = (.failure ("Falha após " ++ toString MAX_RETRIES ++ " tentativas: "
            ++ errorKindName (outcomes 2)),
         [2, 4, 8], [proxyUrl, proxyUrl, proxyUrl]) := by
  have s0 : fetchGo proxyUrl outcomes 3 0 none
      = ((fetchGo proxyUrl outcomes 2 1 (some (errorKindName (outcomes 0)))).1,
         2 :: (fetchGo proxyUrl outcomes 2 1 (some (errorKindName (outcomes 0)))).2.1,
         proxyUrl
           :: (fetchGo proxyUrl outcomes 2 1 (some (errorKindName (outcomes 0)))).2.2) :=
    fetchGo_retry_step proxyUrl outcomes 2 0 none h0
  have s1 : fetchGo proxyUrl outcomes 2 1 (some (errorKindName (outcomes 0)))
      = ((fetchGo proxyUrl outcomes 1 2 (some (errorKindName (outcomes 1)))).1,
         4 :: (fetchGo proxyUrl outcomes 1 2 (some (errorKindName (outcomes 1)))).2.1,
         proxyUrl
           :: (fetchGo proxyUrl outcomes 1 2 (some (errorKindName (outcomes 1)))).2.2) :=
    fetchGo_retry_step proxyUrl outcomes 1 1 _ h1
  have s2 : fetchGo proxyUrl outcomes 1 2 (some (errorKindName (outcomes 1)))
      = ((fetchGo proxyUrl outcomes 0 3 (some (errorKindName (outcomes 2)))).1,
         8 :: (fetchGo proxyUrl outcomes 0 3 (some (errorKindName (outcomes 2)))).2.1,
         proxyUrl
           :: (fetchGo proxyUrl outcomes 0 3 (some (errorKindName (outcomes 2)))).2.2) :=
    fetchGo_retry_step proxyUrl outcomes 0 2 _ h2
  have s3 : fetchGo proxyUrl outcomes 0 3 (some (errorKindName (outcomes 2)))
      = (.failure ("Falha após " ++ toString MAX_RETRIES ++ " tentativas: "
            ++ errorKindName (outcomes 2)), [], []) := rfl
  show fetchGo proxyUrl outcomes 3 0 none = _
  rw [s0, s1, s2, s3]

theorem fetch_profile_two_retry_then_ok (proxyUrl : String)
    (outcomes : Nat → AttemptOutcome) (data : UserData)
    (h0 : retryable (outcomes 0) = true) (h1 : retryable (outcomes 1) = true)
    (h2 : outcomes 2 = .ok (some data)) :
    fetch_profile proxyUrl outcomes
      = (scoreUser data, [2, 4], [proxyUrl, proxyUrl, proxyUrl]) := by
  have s0 : fetchGo proxyUrl outcomes 3 0 none
      = ((fetchGo proxyUrl outcomes 2 1 (some (errorKindName (outcomes 0)))).1,
         2 :: (fetchGo proxyUrl outcomes 2 1 (some (errorKindName (outcomes 0)))).2.1,
         proxyUrl
           :: (fetchGo proxyUrl outcomes 2 1 (some (errorKindName (outcomes 0)))).2.2) :=
    fetchGo_retry_step proxyUrl outcomes 2 0 none h0
  have s1 : fetchGo proxyUrl outcomes 2 1 (some (errorKindName (outcomes 0)))
      = ((fetchGo proxyUrl outcomes 1 2 (some (errorKindName (outcomes 1)))).1,
         4 :: (fetchGo proxyUrl outcomes 1 2 (some (errorKindName (outcomes 1)))).2.1,
         proxyUrl
           :: (fetchGo proxyUrl outcomes 1 2 (some (errorKindName (outcomes 1)))).2.2) :=
    fetchGo_retry_step proxyUrl outcomes 1 1 _ h1
  have s2 : fetchGo proxyUrl outcomes 1 2 (some (errorKindName (outcomes 1)))
      = (scoreUser data, [], [proxyUrl]) :=
    fetchGo_ok_some_step proxyUrl outcomes 0 2 _ data h2
  show fetchGo proxyUrl outcomes 3 0 none = _
  rw [s0, s1, s2]

/-! Claim theorems. -/

/-- Claim C1 (confirmed): for every user payload, the emitted
`avg_engagement_score` is the floor of `S / n`, where `n = max(len(edges), 1)`
over the at-most-12 truncated post list and `S` sums `likeCount + commentCount`
per post plus `viewCount` exactly when `isVideo`; the `viewCount` of a
non-video post never affects its score, and an empty post list yields
`posts_analyzed = 1` and `avg_engagement_score = 0`. -/
theorem claim_C1_scorer (username : String) (data : UserData) :
    ((makeRow username (scoreUser data)).avg_engagement_score
        = ⌊(((((data.edges.take 12).map post_score).sum : ℕ) : ℚ)
            / ((max (data.edges.take 12).length 1 : ℕ) : ℚ) : ℚ)⌋₊)
    ∧ ((makeRow username (scoreUser data)).posts_analyzed
        = max (data.edges.take 12).length 1)
    ∧ (∀ node : Post, node.isVideo = true →
        post_score node = node.likeCount + node.commentCount + node.viewCount)
    ∧ (∀ node : Post, node.isVideo = false → ∀ v : Nat,
        post_score { node with viewCount := v }
          = node.likeCount + node.commentCount)
    ∧ (data.edges = [] →
        (makeRow username (scoreUser data)).posts_analyzed = 1
        ∧ (makeRow username (scoreUser data)).avg_engagement_score = 0) := by
  refine ⟨?_, ?_, ?_, ?_, ?_⟩
  · rw [Nat.floor_div_eq_div]
    rfl
  · simp [makeRow, scoreUser]
  · intro node h
    simp [post_score, h]
  · intro node h v
    simp [post_score, h]
  · intro h
    simp [makeRow, scoreUser, h]

/-- Claim C1 witness: a profile with an empty post list is analysed as one
post with average score zero. -/
theorem claim_C1_scorer_witness :
    (makeRow "x" (scoreUser ⟨5, []⟩)).posts_analyzed = 1
    ∧ (makeRow "x" (scoreUser ⟨5, []⟩)).avg_engagement_score = 0 :=
  (claim_C1_scorer "x" ⟨5, []⟩).2.2.2.2 rfl

/-- Claim C2 counterexample: a profile with followers = 1 and two non-video
posts whose scores are 1 and 0 has `avg_engagement_score = floor(1/2) = 0`,
so the claim's formula `round(avgEngagementScore / followers * 100, 2)` gives
0, yet the code computes the rate from the un-floored mean `1/2` and emits
50.0. -/
theorem claim_C2_rate_counterexample :
    (makeRow "x" (scoreUser ⟨1, [⟨1, 0, 0, false⟩, ⟨0, 0, 0, false⟩]⟩)).engagement_rate_pct
        = 50
    ∧ (makeRow "x" (scoreUser ⟨1, [⟨1, 0, 0, false⟩, ⟨0, 0, 0, false⟩]⟩)).avg_engagement_score
        = 0
    ∧ round2
        (((makeRow "x" (scoreUser ⟨1, [⟨1, 0, 0, false⟩, ⟨0, 0, 0, false⟩]⟩)).avg_engagement_score : ℚ)
          / ((makeRow "x" (scoreUser ⟨1, [⟨1, 0, 0, false⟩, ⟨0, 0, 0, false⟩]⟩)).followers : ℚ)
          * 100) = 0
    ∧ (50 : ℚ) ≠ 0 := by
  refine ⟨?_, by rfl, ?_, by norm_num⟩
  · simp [makeRow, scoreUser, post_score, round2]
    norm_num
  · simp [makeRow, scoreUser, post_score, round2]

/-- Claim C2 (corrected): the emitted `engagement_rate_pct` is
`round((S / n) / followers * 100, 2)` computed from the un-floored mean
per-post score `S / n`, not from the already-floored integer
`avg_engagement_score`; `followers = 0` still yields rate 0 with no division
error. -/
theorem claim_C2_rate_from_unfloored_mean (username : String) (data : UserData) :
    (data.followerCount = 0 →
        (makeRow username (scoreUser data)).engagement_rate_pct = 0)
    ∧ (data.followerCount ≠ 0 →
        (makeRow username (scoreUser data)).engagement_rate_pct
          = round2 ((((((data.edges.take 12).map post_score).sum : ℕ) : ℚ)
              / ((max (data.edges.take 12).length 1 : ℕ) : ℚ))
              / ((data.followerCount : ℕ) : ℚ) * 100)) := by
  constructor
  · intro h
    simp [makeRow, scoreUser, h, round2]
  · intro h
    simp [makeRow, scoreUser, h, round2]

/-- Claim C2 witness: the spec's own example — 1000 followers, two non-video
posts scoring 50 and 150 — satisfies the corrected formula. -/
theorem claim_C2_rate_witness :
    (UserData.mk 1000 [Post.mk 50 0 0 false, Post.mk 150 0 0 false]).followerCount ≠ 0
    ∧ (makeRow "y"
        (scoreUser (UserData.mk 1000 [Post.mk 50 0 0 false, Post.mk 150 0 0 false]))).engagement_rate_pct
      = round2 (((((UserData.mk 1000 [Post.mk 50 0 0 false,
            Post.mk 150 0 0 false]).edges.take 12).map post_score).sum : ℚ)
          / ((max ((UserData.mk 1000 [Post.mk 50 0 0 false,
              Post.mk 150 0 0 false]).edges.take 12).length 1 : ℕ) : ℚ)
          / ((UserData.mk 1000 [Post.mk 50 0 0 false,
              Post.mk 150 0 0 false]).followerCount : ℚ) * 100) :=
  ⟨by norm_num,
   (claim_C2_rate_from_unfloored_mean "y"
      (UserData.mk 1000 [Post.mk 50 0 0 false, Post.mk 150 0 0 false])).2
      (by norm_num)⟩

/-- Claim C3 (code bug): processing "alice" with every attempt failing on an
HTTP status error executes all three attempts (three backoff sleeps), yet
only one session URL is ever requested, keyed `session_alice` with no attempt
index, and all three attempts use that same proxy binding through the shared
client — nothing fresh is requested or rebuilt per attempt. -/
theorem claim_C3_session_not_per_attempt :
    (process_and_save_username id "alice" (fun _ => .httpStatusError)).sessionIdsRequested
        = ["session_alice"]
    ∧ (process_and_save_username id "alice" (fun _ => .httpStatusError)).sleeps.length = 3
    ∧ (process_and_save_username id "alice" (fun _ => .httpStatusError)).proxiesUsedPerAttempt
        = ["session_alice", "session_alice", "session_alice"] :=
  ⟨rfl, rfl, rfl⟩

/-- Claim C4 (confirmed): an attempt is retried exactly when it fails with an
upstream HTTP status error, a proxy connection error or a read timeout,
sleeping `BASE_DELAY_SECONDS * 2 ^ attempt` (2, 4, 8, …) before the next
attempt; any other exception returns immediately with no sleep and no further
attempts; and two transient failures followed by a success yield the success
result after sleeping 2 + 4 seconds in total. -/
theorem claim_C4_retry_policy (proxyUrl : String) (outcomes : Nat → AttemptOutcome) :
    (∀ (rem attempt : Nat) (lastError : Option String),
        retryable (outcomes attempt) = true →
        fetchGo proxyUrl outcomes (rem + 1) attempt lastError
          = ((fetchGo proxyUrl outcomes rem (attempt + 1)
                (some (errorKindName (outcomes attempt)))).1,
             BASE_DELAY_SECONDS * 2 ^ attempt
               :: (fetchGo proxyUrl outcomes rem (attempt + 1)
                    (some (errorKindName (outcomes attempt)))).2.1,
             proxyUrl
               :: (fetchGo proxyUrl outcomes rem (attempt + 1)
                    (some (errorKindName (outcomes attempt)))).2.2))
    ∧ (∀ (rem attempt : Nat) (lastError : Option String) (kind msg : String),
        outcomes attempt = .otherException kind msg →
        fetchGo proxyUrl outcomes (rem + 1) attempt lastError
          = (.failure ("Erro inesperado: " ++ kind ++ ": " ++ msg), [], [proxyUrl]))
    ∧ (∀ data : UserData,
        retryable (outcomes 0) = true → retryable (outcomes 1) = true →
        outcomes 2 = .ok (some data) →
        (fetch_profile proxyUrl outcomes).1 = scoreUser data
        ∧ (fetch_profile proxyUrl outcomes).2.1 = [2, 4]
        ∧ ((fetch_profile proxyUrl outcomes).2.1).sum = 2 + 4) := by
  refine ⟨?_, ?_, ?_⟩
  · intro rem attempt lastError h
    exact fetchGo_retry_step proxyUrl outcomes rem attempt lastError h
  · intro rem attempt lastError kind msg h
    exact fetchGo_other_step proxyUrl outcomes rem attempt lastError kind msg h
  · intro data h0 h1 h2
    rw [fetch_profile_two_retry_then_ok proxyUrl outcomes data h0 h1 h2]
    exact ⟨rfl, rfl, rfl⟩

/-- Claim C4 witness: attempts failing with an HTTP status error then a read
timeout, then succeeding, produce the success result after sleeps [2, 4]. -/
theorem claim_C4_retry_policy_witness :
    (fetch_profile "p"
        (fun k => if k = 0 then .httpStatusError
          else if k = 1 then .readTimeout else .ok (some ⟨7, []⟩))).1
      = scoreUser ⟨7, []⟩
    ∧ (fetch_profile "p"
        (fun k => if k = 0 then .httpStatusError
          else if k = 1 then .readTimeout else .ok (some ⟨7, []⟩))).2.1
      = [2, 4] := by
  have h := (claim_C4_retry_policy "p"
      (fun k => if k = 0 then .httpStatusError
        else if k = 1 then .readTimeout else .ok (some ⟨7, []⟩))).2.2
      ⟨7, []⟩ rfl rfl rfl
  exact ⟨h.1, h.2.1⟩

/-- Claim C5 counterexample: with all three attempts failing on a proxy
error, the returned error string is the Portuguese
"Falha após 3 tentativas: ProxyError", not the claim's literal
"Failed after 3 attempts: ProxyError". -/
theorem claim_C5_error_string_counterexample :
    (fetch_profile "p" (fun _ => .proxyError)).1
      = .failure "Falha após 3 tentativas: ProxyError"
    ∧ "Falha após 3 tentativas: ProxyError" ≠ "Failed after 3 attempts: ProxyError" :=
  ⟨rfl, by decide⟩

/-- Claim C5 (corrected): when all `MAX_RETRIES = 3` attempts are exhausted
on retryable errors, the emitted row is well formed, with
`error = "Falha após <MAX_RETRIES> tentativas: <last error kind>"` — the
attempt count and last error kind, in the code's Portuguese template — and
every other field at its zero default; the function always returns such a
row rather than raising. -/
theorem claim_C5_exhaustion_row (newUrl : String → String) (username : String)
    (outcomes : Nat → AttemptOutcome)
    (h0 : retryable (outcomes 0) = true) (h1 : retryable (outcomes 1) = true)
    (h2 : retryable (outcomes 2) = true) :
    (process_and_save_username newUrl username outcomes).row
      = { username := username, followers := 0, posts_analyzed := 0,
          avg_engagement_score := 0, engagement_rate_pct := 0,
          error := some ("Falha após " ++ toString MAX_RETRIES ++ " tentativas: "
            ++ errorKindName (outcomes 2)) } := by
  rw [process_row_eq, fetch_profile_all_retryable _ outcomes h0 h1 h2]
  rfl

/-- Claim C5 witness: three read timeouts produce the exhaustion row for
"alice". -/
theorem claim_C5_exhaustion_row_witness :
    (process_and_save_username id "alice" (fun _ => .readTimeout)).row
      = { username := "alice", followers := 0, posts_analyzed := 0,
          avg_engagement_score := 0, engagement_rate_pct := 0,
          error := some "Falha após 3 tentativas: ReadTimeout" } :=
  claim_C5_exhaustion_row id "alice" (fun _ => .readTimeout) rfl rfl rfl

/-- Claim C6 counterexample: a missing/empty user payload yields the
Portuguese error string "perfil inexistente/privado", not the claim's
literal "profile inexistent/private". -/
theorem claim_C6_notfound_counterexample :
    (fetch_profile "p" (fun _ => .ok none)).1
      = .failure "perfil inexistente/privado"
    ∧ "perfil inexistente/privado" ≠ "profile inexistent/private" :=
  ⟨rfl, by decide⟩

/-- Claim C6 (corrected): at any attempt with any retry budget remaining, a
response whose user payload is missing or empty immediately produces the
result with `error = "perfil inexistente/privado"` (the code's Portuguese
string), with no backoff sleep and no further attempts. -/
theorem claim_C6_notfound_terminal (proxyUrl : String)
    (outcomes : Nat → AttemptOutcome) (rem attempt : Nat)
    (lastError : Option String) (h : outcomes attempt = .ok none) :
    fetchGo proxyUrl outcomes (rem + 1) attempt lastError
      = (.failure "perfil inexistente/privado", [], [proxyUrl]) :=
  fetchGo_ok_none_step proxyUrl outcomes rem attempt lastError h

/-- Claim C6 witness: an empty payload on the first attempt ends the whole
fetch at once. -/
theorem claim_C6_notfound_terminal_witness :
    fetchGo "p" (fun _ => .ok none) 3 0 none
      = (.failure "perfil inexistente/privado", [], ["p"]) :=
  claim_C6_notfound_terminal "p" (fun _ => .ok none) 2 0 none rfl

/-- Claim C7 counterexample: the row emitted for a username whose profile is
missing/private has `posts_analyzed = 0`, violating `postsAnalyzed ≥ 1` —
failure results carry no `posts_analyzed` key, so the row keeps its zero
default. -/
theorem claim_C7_invariant_counterexample :
    (process_and_save_username id "carol" (fun _ => .ok none)).row.posts_analyzed = 0
    ∧ ¬(1 ≤ (process_and_save_username id "carol"
          (fun _ => .ok none)).row.posts_analyzed) :=
  ⟨rfl, by decide⟩

/-- Claim C7 (corrected): every emitted row has `followers ≥ 0`; rows on the
success branch (`error = none`) have `posts_analyzed ≥ 1`, but rows on the
error branch keep the zero defaults `posts_analyzed = 0` and
`followers = 0`. -/
theorem claim_C7_row_invariants (newUrl : String → String) (username : String)
    (outcomes : Nat → AttemptOutcome) :
    0 ≤ (process_and_save_username newUrl username outcomes).row.followers
    ∧ ((process_and_save_username newUrl username outcomes).row.error = none →
        1 ≤ (process_and_save_username newUrl username outcomes).row.posts_analyzed)
    ∧ (∀ e : String,
        (process_and_save_username newUrl username outcomes).row.error = some e →
        (process_and_save_username newUrl username outcomes).row.posts_analyzed = 0
        ∧ (process_and_save_username newUrl username outcomes).row.followers = 0) := by
  simp only [process_row_eq]
  cases hr : (fetch_profile (newUrl (session_id_for username)) outcomes).1 with
  | success f n a er =>
    refine ⟨Nat.zero_le _, ?_, ?_⟩
    · intro _
      have hn := fetch_success_posts (newUrl (session_id_for username)) outcomes
        MAX_RETRIES 0 none f n a er hr
      simpa [makeRow] using hn
    · intro e he
      simp [makeRow] at he
  | failure e0 =>
    refine ⟨Nat.zero_le _, ?_, ?_⟩
    · intro hnone
      simp [makeRow] at hnone
    · intro e he
      simp [makeRow]

/-- Claim C7 witness: a successful one-post profile yields a row with
`posts_analyzed ≥ 1`. -/
theorem claim_C7_row_invariants_witness :
    1 ≤ (process_and_save_username id "dave"
        (fun _ => .ok (some ⟨3, [⟨1, 1, 1, true⟩]⟩))).row.posts_analyzed :=
  (claim_C7_row_invariants id "dave"
    (fun _ => .ok (some ⟨3, [⟨1, 1, 1, true⟩]⟩))).2.1 rfl

/-- Claim C8 (confirmed): for the input `["@alice", " bob ", ""]`, exactly
two rows are emitted — one with username "alice" and one with username "bob"
— and the progress total counts 2, the empty entry being dropped. -/
theorem claim_C8_example (newUrl : String → String)
    (outcomes : String → Nat → AttemptOutcome) :
    (emittedRows newUrl ["@alice", " bob ", ""] outcomes).length = 2
    ∧ ((emittedRows newUrl ["@alice", " bob ", ""] outcomes).filter
        (fun r => r.username == "alice")).length = 1
    ∧ ((emittedRows newUrl ["@alice", " bob ", ""] outcomes).filter
        (fun r => r.username == "bob")).length = 1
    ∧ total_usernames ["@alice", " bob ", ""] = 2 := by
  have hrows : emittedRows newUrl ["@alice", " bob ", ""] outcomes
      = [(process_and_save_username newUrl "alice" (outcomes "alice")).row,
         (process_and_save_username newUrl "bob" (outcomes "bob")).row] := rfl
  rw [hrows]
  refine ⟨rfl, ?_, ?_, rfl⟩
  · simp [List.filter, process_row_username]
  · simp [List.filter, process_row_username]

/-- Claim C8 witness: the example input emits exactly two rows. -/
theorem claim_C8_example_witness :
    (emittedRows id ["@alice", " bob ", ""] (fun _ _ => .ok none)).length = 2 :=
  (claim_C8_example id (fun _ _ => .ok none)).1

/-- Claim C9 counterexample: for the input "alice@", the code dispatches
"alice" — `strip("@ ")` also removes trailing characters — while the spec's
normalization (trim whitespace, strip leading '@'/spaces) keeps "alice@". -/
theorem claim_C9_normalization_counterexample :
    clean_username "alice@" = "alice"
    ∧ specNormalize "alice@" = "alice@"
    ∧ clean_username "alice@" ≠ specNormalize "alice@" :=
  ⟨rfl, rfl, by decide⟩

/-- Claim C9 (corrected): the dispatched names are exactly the non-empty
results of `strip("@ ")` — stripping '@' and ' ' characters from both ends
of the input, not the spec's trim-then-leading-strip — and a username empty
after this cleaning is excluded before dispatch. -/
theorem claim_C9_dispatched_names (usernames : List String) (s : String) :
    s ∈ keptUsernames usernames
      ↔ (∃ t, t ∈ usernames ∧ clean_username t = s) ∧ s ≠ "" := by
  simp only [keptUsernames, List.mem_filter, List.mem_map, decide_eq_true_eq,
    ne_eq]

/-- Claim C9 witness: "alice" is dispatched for the input list
`["@alice", ""]`. -/
theorem claim_C9_dispatched_names_witness :
    "alice" ∈ keptUsernames ["@alice", ""] :=
  (claim_C9_dispatched_names ["@alice", ""] "alice").mpr
    ⟨⟨"@alice", by simp, rfl⟩, by decide⟩

/-- Claim C10 (confirmed): when all three attempts fail with retryable
errors, the code sleeps after every failed attempt including the final one:
the sleep trace is [2, 4, 8], 14 seconds in total, though no attempt follows
the last sleep. -/
theorem claim_C10_sleeps_after_final_attempt (proxyUrl : String)
    (outcomes : Nat → AttemptOutcome)
    (h0 : retryable (outcomes 0) = true) (h1 : retryable (outcomes 1) = true)
    (h2 : retryable (outcomes 2) = true) :
    (fetch_profile proxyUrl outcomes).2.1 = [2, 4, 8]
    ∧ ((fetch_profile proxyUrl outcomes).2.1).sum = 14 := by
  rw [fetch_profile_all_retryable proxyUrl outcomes h0 h1 h2]
  exact ⟨rfl, rfl⟩

/-- Claim C10 witness: three HTTP status errors sleep 2, 4 and 8 seconds. -/
theorem claim_C10_sleeps_witness :
    (fetch_profile "p" (fun _ => .httpStatusError)).2.1 = [2, 4, 8] :=
  (claim_C10_sleeps_after_final_attempt "p" (fun _ => .httpStatusError)
    rfl rfl rfl).1
